import Mathlib

/-
  Verification of the cv-evaluation repository core.

  Shallow embedding of:
  - the rubric scoring loop of EvaluationsService.evaluateCv / evaluateProject
    (src/modules/evaluations/services/evaluations.service.ts),
  - the resilient LLM invocation layer (src/common/utils/llm.util.ts),
  - the rubric weight-sum checks (system-documents.service.ts),
  - the persisted Job / EvaluationResult state and the service methods
    initializeJob, getJobStatus, updateFailedJob, and the BullMQ processors
    (evaluation.processor.ts).

  Numbers are modelled as exact rationals; JavaScript Math.round(x) is
  modelled as the floor of x + 1/2, which agrees with JS on the
  non-negative values arising here.
-/

namespace CvEval

/-- A rubric criterion as produced by RubricSchema (rubric.schema.ts):
name (snake_case), human-readable displayName, weight as a percentage. -/
structure Criterion where
  name : String
  displayName : String
  weight : ℚ
deriving Repr, DecidableEq

/-- A rubric: a list of criteria (RubricSchema). -/
structure Rubric where
  criteria : List Criterion
deriving Repr, DecidableEq

/-- One entry of the LLM evaluation result for a criterion
(generateEvaluationSchema in evaluation.schema.ts validates score as an
integer in [1,5] and reasoning as a string). -/
structure CriterionResult where
  score : ℤ
  reasoning : String
deriving Repr, DecidableEq

/-- The raw criteria map of the LLM answer: JS object lookup
evaluationResult.criteria[criterion.name]. -/
abbrev RawScores : Type := String → Option CriterionResult

/-- An enriched criterion entry as built by the scoring loop. -/
structure EnrichedCriterion where
  score : ℤ
  reasoning : String
  weight : ℚ
  displayName : String
deriving Repr, DecidableEq

/-- Accumulator of the scoring loop: weightedSum, totalWeight and the
enrichedCriteria object (insertion order preserved). -/
structure ScoreAcc where
  weightedSum : ℚ
  totalWeight : ℚ
  enriched : List (String × EnrichedCriterion)
deriving Repr, DecidableEq

/-- One iteration of rubric.criteria.forEach in evaluateCv and, identically,
in evaluateProject (evaluations.service.ts lines 209-223 and 301-315):
skip the criterion when no matching raw entry exists, otherwise add
normalized times weight over 100 to weightedSum and the weight to
totalWeight, and record the enriched entry. -/
def scoreStep (raw : RawScores) (acc : ScoreAcc) (c : Criterion) : ScoreAcc :=
  match raw c.name with
  | some r =>
      { weightedSum := acc.weightedSum + (((r.score : ℚ) - 1) / 4 * 100) * (c.weight / 100)
        totalWeight := acc.totalWeight + c.weight
        enriched := acc.enriched ++ [(c.name, ⟨r.score, r.reasoning, c.weight, c.displayName⟩)] }
  | none => acc

/-- The full scoring loop over the rubric criteria. -/
def scoreLoop (rubric : Rubric) (raw : RawScores) : ScoreAcc :=
  rubric.criteria.foldl (scoreStep raw) ⟨0, 0, []⟩

/-- JavaScript Math.round on the values arising here (non-negative):
floor of x plus one half. -/
def jsRound (x : ℚ) : ℤ :=
  ⌊x + 1 / 2⌋

/-- Rounding to two decimals: Math.round(x * 100) / 100. -/
def round2 (x : ℚ) : ℚ :=
  (jsRound (x * 100) : ℚ) / 100

/-- The weighted_score computed by evaluateCv / evaluateProject
(evaluations.service.ts lines 225-226 and 317-318): round² of weightedSum
when totalWeight is positive, else 0. -/
def weighted_score (rubric : Rubric) (raw : RawScores) : ℚ :=
  let acc := scoreLoop rubric raw
  if acc.totalWeight > 0 then round2 acc.weightedSum else 0

/-- The enrichedCriteria object returned alongside the weighted score. -/
def enrichedCriteria (rubric : Rubric) (raw : RawScores) : List (String × EnrichedCriterion) :=
  (scoreLoop rubric raw).enriched

/-- Normalized 0-100 score of one raw entry: (score - 1) / 4 * 100. -/
def normalizedScore (r : CriterionResult) : ℚ :=
  ((r.score : ℚ) - 1) / 4 * 100

/-- The criteria of a list that have a matching raw entry. -/
def matchedCriteria (raw : RawScores) (l : List Criterion) : List Criterion :=
  l.filter (fun c => (raw c.name).isSome)

/-- Contribution of a criterion to the weighted sum, reading its raw entry
(0 when absent; only used on matched criteria). -/
def contribution (raw : RawScores) (c : Criterion) : ℚ :=
  match raw c.name with
  | some r => normalizedScore r * (c.weight / 100)
  | none => 0

/-- Sum of contributions of the matched criteria. -/
def matchedWeightedSum (raw : RawScores) (l : List Criterion) : ℚ :=
  ((matchedCriteria raw l).map (contribution raw)).sum

/-- Sum of the weights of the matched criteria. -/
def matchedTotalWeight (raw : RawScores) (l : List Criterion) : ℚ :=
  ((matchedCriteria raw l).map (fun c => c.weight)).sum

/-- Modelled from the spec: the weighted average of the normalized scores
over ONLY the matched criteria, with the matched weights as denominator
(the partial-credit law of section 8 of the spec). Used to compare the
source computation against the spec claim. -/
def specMatchedWeightedAverage (raw : RawScores) (l : List Criterion) : ℚ :=
  matchedWeightedSum raw l / (matchedTotalWeight raw l / 100)

/-- Modelled from the spec: the weighted average of all normalized scores,
weighted by weight over 100, for a complete raw map. -/
def specWeightedAverage (raw : RawScores) (l : List Criterion) : ℚ :=
  (l.map (contribution raw)).sum / ((l.map (fun c => c.weight / 100)).sum)

/-- Sum of weights of a rubric criteria list as computed in
system-documents.service.ts: criteria.reduce((sum, c) => sum + c.weight, 0). -/
def rubricTotalWeight (rubric : Rubric) : ℚ :=
  rubric.criteria.foldl (fun s c => s + c.weight) 0

/-- A JavaScript Error-like object as inspected by isRetryableError in
llm.util.ts: a message plus the optional fields status (a number) and
code (a string) that the classifier reads. -/
structure JsError where
  message : String
  status : Option ℤ
  code : Option String
deriving Repr, DecidableEq

/-- An unknown thrown value: some object error, or none for a thrown
non-object value (which isRetryableError rejects up front). -/
abbrev ThrownValue : Type := Option JsError

/-- Faithful translation of isRetryableError (llm.util.ts lines 51-80):
status 429, code ETIMEDOUT or ESOCKETTIMEDOUT, numeric status in
[500, 600), connection-level codes, or DNS codes are retryable;
everything else, including a non-object value, is not. -/
def isRetryableError : ThrownValue → Bool
  | none => false
  | some e =>
    if e.status = some 429 then true
    else if e.code = some "ETIMEDOUT" ∨ e.code = some "ESOCKETTIMEDOUT" then true
    else if (match e.status with
             | some s => decide (500 ≤ s) && decide (s < 600)
             | none => false) = true then true
    else if e.code = some "ECONNRESET" ∨ e.code = some "ECONNREFUSED" ∨
            e.code = some "EHOSTUNREACH" ∨ e.code = some "ENETUNREACH" then true
    else if e.code = some "ENOTFOUND" ∨ e.code = some "GETADDRINFO" then true
    else false

/-- The rejection produced by withTimeout (llm.util.ts lines 82-93) when the
timer fires first: new Error(message), a plain Error carrying neither a
status nor a code field. -/
def timeoutError (message : String) : JsError :=
  ⟨message, none, none⟩

/-- The resolved retry configuration (DEFAULT_CONFIG merged with overrides);
delays in milliseconds as exact rationals. -/
structure RetryConfig where
  maxRetries : ℕ
  initialRetryDelayMs : ℚ
  maxRetryDelayMs : ℚ
  timeoutMs : ℚ
deriving Repr, DecidableEq

/-- DEFAULT_CONFIG of llm.util.ts. -/
def DEFAULT_CONFIG : RetryConfig :=
  ⟨3, 1000, 30000, 60000⟩

/-- calculateBackoffDelay (llm.util.ts lines 41-49) with the Math.random()
draw made explicit as rand: exponential delay initial times 2 to the
attempt, capped at the maximum, plus jitter capped times 0.1 times
(rand - 0.5), floored at zero. -/
def calculateBackoffDelay (attempt : ℕ) (config : RetryConfig) (rand : ℚ) : ℚ :=
  let exponentialDelay := config.initialRetryDelayMs * 2 ^ attempt
  let cappedDelay := min exponentialDelay config.maxRetryDelayMs
  let jitter := cappedDelay * (1 / 10) * (rand - 1 / 2)
  max (cappedDelay + jitter) 0

/-- The typed LLMError thrown after the retry loop ends (llm.util.ts
lines 5-16 and 186-199): message, retryable flag, optional status code,
and the original error as cause. -/
structure LLMError where
  message : String
  isRetryable : Bool
  statusCode : Option ℤ
  originalError : Option JsError
deriving Repr, DecidableEq

/-- Message text of lastError?.message: "undefined" when no error object. -/
def lastErrorMessage : ThrownValue → String
  | none => "undefined"
  | some e => e.message

/-- Construction of the thrown LLMError from the recorded lastError
(llm.util.ts lines 186-199): statusCode only when status is a number,
retryable flag recomputed by isRetryableError, the original error kept
as cause exactly when it is an Error object. -/
def mkLLMError (maxRetries : ℕ) (lastError : ThrownValue) : LLMError :=
  { message := "generateObject failed after " ++ toString maxRetries ++
               " attempts: " ++ lastErrorMessage lastError
    isRetryable := isRetryableError lastError
    statusCode := lastError.bind (fun e => e.status)
    originalError := lastError }

/-- Outcome of one attempt of the underlying generation call raced against
the timeout: success with a value, or a thrown value. -/
inductive Outcome (α : Type) where
  | success (value : α)
  | failure (error : ThrownValue)
deriving Repr, DecidableEq

/-- The retry loop of generateObjectWithRetry (llm.util.ts lines 149-185),
with the per-attempt outcomes supplied as an oracle. Arguments: current
attempt index, remaining loop iterations (maxRetries - attempt), last
recorded error. Returns the overall result together with the number of
attempts actually performed. On a failure the loop breaks when
attempt >= maxRetries - 1 or the error is not retryable, and then throws
mkLLMError. -/
def runRetryGo (outcomes : ℕ → Outcome α) (maxRetries : ℕ) :
    ℕ → ℕ → ThrownValue → Except LLMError α × ℕ
  | attempt, 0, lastError => (Except.error (mkLLMError maxRetries lastError), attempt)
  | attempt, fuel + 1, _lastError =>
    match outcomes attempt with
    | Outcome.success v => (Except.ok v, attempt + 1)
    | Outcome.failure e =>
      if maxRetries - 1 ≤ attempt ∨ isRetryableError e = false then
        (Except.error (mkLLMError maxRetries e), attempt + 1)
      else
        runRetryGo outcomes maxRetries (attempt + 1) fuel e

/-- generateObjectWithRetry as a function of the attempt-outcome oracle:
the loop runs attempts 0 .. maxRetries - 1. The second component counts
the generation calls performed. -/
def generateObjectWithRetry (outcomes : ℕ → Outcome α) (maxRetries : ℕ) :
    Except LLMError α × ℕ :=
  runRetryGo outcomes maxRetries 0 maxRetries none

/-- getCvRubric (system-documents.service.ts lines 190-235) after the
extraction step, with the retrieval and extraction result supplied as an
oracle: when the weights sum differs from 100 by more than 0.1 it throws
InternalServerErrorException, otherwise the rubric is returned unchanged. -/
def getCvRubric (fetched : Except String Rubric) : Except String Rubric :=
  match fetched with
  | Except.error e => Except.error e
  | Except.ok rubric =>
    if |rubricTotalWeight rubric - 100| > 1 / 10 then
      Except.error "CV Rubric is misconfigured"
    else
      Except.ok rubric

/-- getProjectRubric (system-documents.service.ts lines 237-278): the same
weight-sum deviation only produces a warning log; the rubric is returned
unchanged in every case. The Boolean records whether the warning fired. -/
def getProjectRubric (fetched : Except String Rubric) : Except String (Rubric × Bool) :=
  match fetched with
  | Except.error e => Except.error e
  | Except.ok rubric =>
    Except.ok (rubric, decide (|rubricTotalWeight rubric - 100| > 1 / 10))

/-- Job status enum of the Prisma schema. -/
inductive JobStatus where
  | QUEUED
  | PROCESSING
  | COMPLETED
  | FAILED
deriving Repr, DecidableEq

/-- The Job row fields the core reads and writes. -/
structure JobRecord where
  id : String
  status : JobStatus
deriving Repr, DecidableEq

/-- The EvaluationResult row, one-to-one with the Job. -/
structure ResultRecord where
  cvMatchRate : Option ℚ
  cvFeedback : Option String
  cvCriteria : Option (List (String × EnrichedCriterion))
  projectScore : Option ℚ
  projectFeedback : Option String
  projectCriteria : Option (List (String × EnrichedCriterion))
  overallSummary : Option String
  error : Option String
  currentStage : String
deriving Repr, DecidableEq

/-- The persisted state for one job id: the Job row and its
EvaluationResult row, each possibly absent. -/
structure Db where
  job : Option JobRecord
  result : Option ResultRecord
deriving Repr, DecidableEq

/-- The EvaluationResult row as created by initializeJob: every data field
null and currentStage queued. -/
def emptyResult : ResultRecord :=
  ⟨none, none, none, none, none, none, none, none, "queued"⟩

/-- initializeJob (evaluations.service.ts lines 43-95) over the single-job
state, with the success of each underlying write supplied as an oracle:
job.create, then evaluationResult.create, then flowProducer.add, awaited
sequentially with no surrounding transaction; a failing write propagates
(exception) and performs no rollback of the earlier writes. -/
def initializeJob (jobId : String) (wJob wResult wFlow : Bool) (db : Db) :
    Except String JobRecord × Db :=
  if wJob = false then
    (Except.error "job create failed", db)
  else
    let job : JobRecord := ⟨jobId, JobStatus.QUEUED⟩
    let db1 : Db := { db with job := some job }
    if wResult = false then
      (Except.error "evaluationResult create failed", db1)
    else
      let db2 : Db := { db1 with result := some emptyResult }
      if wFlow = false then
        (Except.error "flow add failed", db2)
      else
        (Except.ok job, db2)

/-- JavaScript truthiness of a nullable number: null and 0 are falsy. -/
def truthyNum : Option ℚ → Bool
  | none => false
  | some q => decide (q ≠ 0)

/-- JavaScript x || two-quotes on a nullable string field. -/
def jsOrEmpty : Option String → String
  | none => ""
  | some s => s

/-- The result object of the getJobStatus response. -/
structure JobStatusResult where
  cv_match_rate : ℚ
  cv_feedback : String
  project_score : ℚ
  project_feedback : String
  overall_summary : String
deriving Repr, DecidableEq

/-- The getJobStatus response shape. -/
structure JobStatusResponse where
  id : String
  status : JobStatus
  result : Option JobStatusResult
  error : Option String
deriving Repr, DecidableEq

/-- The response object getJobStatus builds for an existing Job row: id,
status, the enriched result exactly when status is COMPLETED and both
cvMatchRate and projectScore are truthy (JS && over the optional-chained
fields), and the stored error. -/
def statusResponse (job : JobRecord) (res : Option ResultRecord) : JobStatusResponse :=
  { id := job.id
    status := job.status
    result :=
      if job.status = JobStatus.COMPLETED ∧
         truthyNum (res.bind (fun r => r.cvMatchRate)) = true ∧
         truthyNum (res.bind (fun r => r.projectScore)) = true then
        some
          { cv_match_rate := (res.bind (fun r => r.cvMatchRate)).getD 0
            cv_feedback := jsOrEmpty (res.bind (fun r => r.cvFeedback))
            project_score := (res.bind (fun r => r.projectScore)).getD 0
            project_feedback := jsOrEmpty (res.bind (fun r => r.projectFeedback))
            overall_summary := jsOrEmpty (res.bind (fun r => r.overallSummary)) }
      else none
    error := res.bind (fun r => r.error) }

/-- getJobStatus (evaluations.service.ts lines 97-124): NotFoundException
when no Job row exists; otherwise the response built from the Job row
and its included result relation. -/
def getJobStatus (db : Db) : Except String JobStatusResponse :=
  match db.job with
  | none => Except.error "Job not found"
  | some job => Except.ok (statusResponse job db.result)

/-- updateFailedJob (evaluations.service.ts lines 126-140): set the Job
status to FAILED, then set error to the fixed string and currentStage to
failed on the EvaluationResult; all other fields untouched. -/
def updateFailedJob (db : Db) : Db :=
  let db1 : Db := { db with job := db.job.map (fun j => { j with status := JobStatus.FAILED }) }
  { db1 with
    result := db1.result.map (fun r =>
      { r with
        error := some "Evaluation process failed"
        currentStage := "failed" }) }

/-- The failed-event handler of CvEvaluationProcessor
(evaluation.processor.ts lines 50-56): it only logs; no state is written. -/
def cvOnFailed (db : Db) : Db :=
  db

/-- The failed-event handler of ProjectEvaluationProcessor
(evaluation.processor.ts lines 93-100): it logs and calls updateFailedJob. -/
def projectOnFailed (db : Db) : Db :=
  updateFailedJob db

/-- The structured LLM evaluation answer after schema validation:
the criteria map plus the free-text feedback. -/
structure LlmEval where
  criteria : RawScores
  feedback : String

/-- The EvalResult value returned by evaluateCv / evaluateProject. -/
structure EvalResult where
  weighted_score : ℚ
  criteria : List (String × EnrichedCriterion)
  feedback : String

/-- Update of currentStage on the EvaluationResult row
(prisma evaluationResult.update with only currentStage in data). -/
def updateStage (db : Db) (stage : String) : Db :=
  { db with result := db.result.map (fun r => { r with currentStage := stage }) }

/-- evaluateCv (evaluations.service.ts lines 162-251) over the single-job
state. External effects are supplied as oracles: rubricFetch is the
retrieval-and-extraction part of getCvRubric (its weight check runs
here, in getCvRubric), jdFetch the job-description lookup, llm the
generateObjectWithRetry outcome. The returned Boolean records whether
the evaluation generation call was reached. Writes happen only under
some jobId: the cv_processing stage first, and on success cvMatchRate,
cvFeedback, cvCriteria and the cv_completed stage. -/
def evaluateCv (jobId : Option String) (rubricFetch : Except String Rubric)
    (jdFetch : Except String String) (llm : Except String LlmEval) (db : Db) :
    Except String EvalResult × Db × Bool :=
  let db1 := match jobId with
    | some _ => updateStage db "cv_processing"
    | none => db
  match getCvRubric rubricFetch with
  | Except.error e => (Except.error e, db1, false)
  | Except.ok rubric =>
    match jdFetch with
    | Except.error e => (Except.error e, db1, false)
    | Except.ok _jd =>
      match llm with
      | Except.error e => (Except.error e, db1, true)
      | Except.ok ev =>
        let ws := weighted_score rubric ev.criteria
        let enriched := enrichedCriteria rubric ev.criteria
        let cv_match_rate := (jsRound (ws / 100 * 100) : ℚ) / 100
        let db2 := match jobId with
          | some _ =>
            { db1 with
              result := db1.result.map (fun r =>
                { r with
                  cvMatchRate := some cv_match_rate
                  cvFeedback := some ev.feedback
                  cvCriteria := some enriched
                  currentStage := "cv_completed" }) }
          | none => db1
        (Except.ok ⟨ws, enriched, ev.feedback⟩, db2, true)

/-- evaluateProject (evaluations.service.ts lines 253-344), analogous to
evaluateCv: the project rubric check only warns, csFetch is the
case-study lookup, and on success projectScore, projectFeedback,
projectCriteria and the project_completed stage are written (only under
some jobId). -/
def evaluateProject (jobId : Option String) (rubricFetch : Except String Rubric)
    (csFetch : Except String String) (llm : Except String LlmEval) (db : Db) :
    Except String EvalResult × Db × Bool :=
  let db1 := match jobId with
    | some _ => updateStage db "project_processing"
    | none => db
  match getProjectRubric rubricFetch with
  | Except.error e => (Except.error e, db1, false)
  | Except.ok rubricWarn =>
    match csFetch with
    | Except.error e => (Except.error e, db1, false)
    | Except.ok _cs =>
      match llm with
      | Except.error e => (Except.error e, db1, true)
      | Except.ok ev =>
        let rubric := rubricWarn.1
        let ws := weighted_score rubric ev.criteria
        let enriched := enrichedCriteria rubric ev.criteria
        let project_score := (jsRound ((ws / 100 * 4 + 1) * 10) : ℚ) / 10
        let db2 := match jobId with
          | some _ =>
            { db1 with
              result := db1.result.map (fun r =>
                { r with
                  projectScore := some project_score
                  projectFeedback := some ev.feedback
                  projectCriteria := some enriched
                  currentStage := "project_completed" }) }
          | none => db1
        (Except.ok ⟨ws, enriched, ev.feedback⟩, db2, true)

/-- The two-criteria example rubric of the spec scenarios: weights 60/40. -/
def exRubric : Rubric :=
  ⟨[⟨"crit_a", "Criterion A", 60⟩, ⟨"crit_b", "Criterion B", 40⟩]⟩

/-- A complete raw-score map for exRubric: scores 5 and 3. -/
def exRaw : RawScores := fun s =>
  if s = "crit_a" then some ⟨5, "excellent evidence"⟩
  else if s = "crit_b" then some ⟨3, "adequate evidence"⟩
  else none

/-- A partial raw-score map for exRubric: only crit_a answered, score 5. -/
def partialRaw : RawScores := fun s =>
  if s = "crit_a" then some ⟨5, "excellent evidence"⟩ else none

theorem foldl_scoreStep_eq (raw : RawScores) :
    ∀ (l : List Criterion) (a : ScoreAcc),
      (l.foldl (scoreStep raw) a).weightedSum = a.weightedSum + matchedWeightedSum raw l ∧
      (l.foldl (scoreStep raw) a).totalWeight = a.totalWeight + matchedTotalWeight raw l := by
  intro l
  induction l with
  | nil =>
    intro a
    simp [matchedWeightedSum, matchedTotalWeight, matchedCriteria]
  | cons c l ih =>
    intro a
    cases h : raw c.name with
    | none =>
      have hstep : scoreStep raw a c = a := by
        simp [scoreStep, h]
      have hfilter : matchedCriteria raw (c :: l) = matchedCriteria raw l := by
        simp [matchedCriteria, List.filter, h]
      constructor
      · rw [List.foldl_cons, hstep, (ih a).1]
        simp only [matchedWeightedSum]
        rw [hfilter]
      · rw [List.foldl_cons, hstep, (ih a).2]
        simp only [matchedTotalWeight]
        rw [hfilter]
    | some r =>
      have hfilter : matchedCriteria raw (c :: l) = c :: matchedCriteria raw l := by
        simp [matchedCriteria, List.filter, h]
      have hcontrib : contribution raw c = normalizedScore r * (c.weight / 100) := by
        simp [contribution, h]
      have hstep : scoreStep raw a c =
          ⟨a.weightedSum + normalizedScore r * (c.weight / 100), a.totalWeight + c.weight,
           a.enriched ++ [(c.name, ⟨r.score, r.reasoning, c.weight, c.displayName⟩)]⟩ := by
        simp [scoreStep, h, normalizedScore]
      constructor
      · rw [List.foldl_cons, hstep]
        rw [(ih _).1]
        show a.weightedSum + normalizedScore r * (c.weight / 100) + matchedWeightedSum raw l =
          a.weightedSum + matchedWeightedSum raw (c :: l)
        rw [matchedWeightedSum, matchedWeightedSum, hfilter, List.map_cons, List.sum_cons,
            hcontrib]
        ring
      · rw [List.foldl_cons, hstep]
        rw [(ih _).2]
        show a.totalWeight + c.weight + matchedTotalWeight raw l =
          a.totalWeight + matchedTotalWeight raw (c :: l)
        rw [matchedTotalWeight, matchedTotalWeight, hfilter, List.map_cons, List.sum_cons]
        ring

theorem weighted_score_eq_matched (rubric : Rubric) (raw : RawScores) :
    weighted_score rubric raw =
      if 0 < matchedTotalWeight raw rubric.criteria then
        round2 (matchedWeightedSum raw rubric.criteria)
      else 0 := by
  have h := foldl_scoreStep_eq raw rubric.criteria ⟨0, 0, []⟩
  rw [weighted_score, scoreLoop]
  rw [h.1, h.2]
  simp [gt_iff_lt]

theorem foldl_add_weight (l : List Criterion) :
    ∀ s : ℚ, l.foldl (fun a c => a + c.weight) s = s + (l.map (fun c => c.weight)).sum := by
  induction l with
  | nil => intro s; simp
  | cons c l ih =>
    intro s
    rw [List.foldl_cons, ih (s + c.weight), List.map_cons, List.sum_cons]
    ring

theorem sum_map_weight_div (l : List Criterion) :
    (l.map (fun c => c.weight / 100)).sum = (l.map (fun c => c.weight)).sum / 100 := by
  induction l with
  | nil => simp
  | cons c l ih =>
    rw [List.map_cons, List.sum_cons, ih, List.map_cons, List.sum_cons]
    ring

theorem matchedCriteria_of_complete (raw : RawScores) (l : List Criterion)
    (h : ∀ c ∈ l, (raw c.name).isSome = true) :
    matchedCriteria raw l = l := by
  rw [matchedCriteria, List.filter_eq_self]
  exact h

/-- Claim C1: for a rubric whose weights sum to 100 and a raw-score map
with an entry (integer score in [1,5]) for every criterion, the scoring
computation of evaluateCv (and identically evaluateProject) returns the
weighted average of the normalized scores (score-1)/4*100 weighted by
weight/100, rounded to two decimals. -/
theorem claim_C1 (rubric : Rubric) (raw : RawScores)
    (hsum : rubricTotalWeight rubric = 100)
    (hcomplete : ∀ c ∈ rubric.criteria,
      ∃ r, raw c.name = some r ∧ 1 ≤ r.score ∧ r.score ≤ 5) :
    weighted_score rubric raw = round2 (specWeightedAverage raw rubric.criteria) := by
  have hsome : ∀ c ∈ rubric.criteria, (raw c.name).isSome = true := by
    intro c hc
    obtain ⟨r, hr, -⟩ := hcomplete c hc
    rw [hr]
    rfl
  have hmatch : matchedCriteria raw rubric.criteria = rubric.criteria :=
    matchedCriteria_of_complete raw rubric.criteria hsome
  have hw : (rubric.criteria.map (fun c => c.weight)).sum = 100 := by
    have := foldl_add_weight rubric.criteria 0
    rw [rubricTotalWeight] at hsum
    rw [this] at hsum
    linarith
  have htw : matchedTotalWeight raw rubric.criteria = 100 := by
    rw [matchedTotalWeight, hmatch, hw]
  have hws : matchedWeightedSum raw rubric.criteria =
      (rubric.criteria.map (contribution raw)).sum := by
    rw [matchedWeightedSum, hmatch]
  rw [weighted_score_eq_matched, htw]
  rw [if_pos (by norm_num)]
  rw [hws, specWeightedAverage, sum_map_weight_div, hw]
  norm_num

/-- Claim C1 witness: the 60/40 rubric with scores 5 and 3 satisfies the
hypotheses and yields exactly 80. -/
theorem claim_C1_witness :
    rubricTotalWeight exRubric = 100 ∧
    (∀ c ∈ exRubric.criteria,
      ∃ r, exRaw c.name = some r ∧ 1 ≤ r.score ∧ r.score ≤ 5) ∧
    weighted_score exRubric exRaw = 80 := by
  have hsum : rubricTotalWeight exRubric = 100 := by
    norm_num [rubricTotalWeight, exRubric]
  have hcomplete : ∀ c ∈ exRubric.criteria,
      ∃ r, exRaw c.name = some r ∧ 1 ≤ r.score ∧ r.score ≤ 5 := by
    intro c hc
    fin_cases hc
    · exact ⟨⟨5, "excellent evidence"⟩, by simp +decide [exRaw], by decide, by decide⟩
    · exact ⟨⟨3, "adequate evidence"⟩, by simp +decide [exRaw], by decide, by decide⟩
  refine ⟨hsum, hcomplete, ?_⟩
  rw [claim_C1 exRubric exRaw hsum hcomplete]
  simp +decide [specWeightedAverage, exRubric, exRaw, contribution, normalizedScore, round2, jsRound]
  norm_num

/-- Claim C2 counterexample: with the 60/40 rubric and only the 60-weight
criterion answered (score 5), the code returns 60.00, while the weighted
average over only the matched criteria (partial-credit law, missing
criteria excluded from the denominator) is 100.00. -/
theorem claim_C2_counterexample :
    weighted_score exRubric partialRaw = 60 ∧
    round2 (specMatchedWeightedAverage partialRaw exRubric.criteria) = 100 ∧
    weighted_score exRubric partialRaw ≠
      round2 (specMatchedWeightedAverage partialRaw exRubric.criteria) := by
  have h1 : weighted_score exRubric partialRaw = 60 := by
    simp +decide [weighted_score, scoreLoop, exRubric, partialRaw, scoreStep, round2, jsRound]
    norm_num
  have h2 : round2 (specMatchedWeightedAverage partialRaw exRubric.criteria) = 100 := by
    simp +decide [specMatchedWeightedAverage, matchedWeightedSum, matchedTotalWeight,
      matchedCriteria, contribution, normalizedScore, exRubric, partialRaw, round2, jsRound]
    norm_num
  refine ⟨h1, h2, ?_⟩
  rw [h1, h2]
  norm_num

/-- Claim C2 as amended: missing criteria are excluded from the weighted
sum and from totalWeight, but the denominator is not rescaled to the
matched weights: the returned weighted_score is round2 of the sum over
matched criteria of normalized times weight/100 (when any criterion
matched, else 0), so a missing criterion contributes zero credit rather
than being scored 0, but the score is not renormalized. -/
theorem claim_C2 (rubric : Rubric) (raw : RawScores) :
    weighted_score rubric raw =
      if 0 < matchedTotalWeight raw rubric.criteria then
        round2 (matchedWeightedSum raw rubric.criteria)
      else 0 :=
  weighted_score_eq_matched rubric raw

/-- A configuration whose cap equals the initial delay, used to exhibit a
jittered delay above the cap. -/
def capConfig : RetryConfig :=
  ⟨3, 1000, 1000, 60000⟩

/-- Claim C3 counterexample: with initialDelay = maxDelay = 1000 and a
jitter draw of 0.9, attempt 0 yields 1040, strictly above maxDelay, so
the delay does not lie within [0, maxDelay]. -/
theorem claim_C3_counterexample :
    calculateBackoffDelay 0 capConfig (9 / 10) = 1040 ∧
    ¬ calculateBackoffDelay 0 capConfig (9 / 10) ≤ capConfig.maxRetryDelayMs := by
  have h : calculateBackoffDelay 0 capConfig (9 / 10) = 1040 := by
    simp [calculateBackoffDelay, capConfig]
    norm_num
  refine ⟨h, ?_⟩
  rw [h]
  simp [capConfig]
  norm_num

/-- Claim C3 as amended: for any jitter draw in [0, 1), positive initial
delay and positive cap, the delay is nonnegative and lies strictly below
1.05 times maxDelay (not below maxDelay itself: the +5 percent jitter
can exceed the cap); the un-jittered value (draw 1/2) equals
min(initialDelay * 2^n, maxDelay); and the delay deviates from that
capped exponential value by at most 5 percent of it. -/
theorem claim_C3 (attempt : ℕ) (config : RetryConfig) (rand : ℚ)
    (h0 : 0 ≤ rand) (h1 : rand < 1)
    (hinit : 0 < config.initialRetryDelayMs) (hmax : 0 < config.maxRetryDelayMs) :
    0 ≤ calculateBackoffDelay attempt config rand ∧
    calculateBackoffDelay attempt config rand < 21 / 20 * config.maxRetryDelayMs ∧
    calculateBackoffDelay attempt config (1 / 2) =
      min (config.initialRetryDelayMs * 2 ^ attempt) config.maxRetryDelayMs ∧
    |calculateBackoffDelay attempt config rand -
        min (config.initialRetryDelayMs * 2 ^ attempt) config.maxRetryDelayMs| ≤
      1 / 20 * min (config.initialRetryDelayMs * 2 ^ attempt) config.maxRetryDelayMs := by
  set c := min (config.initialRetryDelayMs * 2 ^ attempt) config.maxRetryDelayMs with hc
  have hdef : calculateBackoffDelay attempt config rand =
      max (c + c * (1 / 10) * (rand - 1 / 2)) 0 := rfl
  have hdefHalf : calculateBackoffDelay attempt config (1 / 2) =
      max (c + c * (1 / 10) * ((1 : ℚ) / 2 - 1 / 2)) 0 := rfl
  have hcpos : 0 < c := by
    apply lt_min
    · positivity
    · exact hmax
  have hcmax : c ≤ config.maxRetryDelayMs := min_le_right _ _
  have hjlo : -(c / 20) ≤ c * (1 / 10) * (rand - 1 / 2) := by nlinarith
  have hjhi : c * (1 / 10) * (rand - 1 / 2) < c / 20 := by nlinarith
  have hpos : 0 < c + c * (1 / 10) * (rand - 1 / 2) := by nlinarith
  have hmaxeq : max (c + c * (1 / 10) * (rand - 1 / 2)) 0 =
      c + c * (1 / 10) * (rand - 1 / 2) := max_eq_left (le_of_lt hpos)
  refine ⟨?_, ?_, ?_, ?_⟩
  · rw [hdef]
    exact le_max_right _ _
  · rw [hdef, hmaxeq]
    nlinarith
  · rw [hdefHalf]
    have : c + c * (1 / 10) * ((1 : ℚ) / 2 - 1 / 2) = c := by ring
    rw [this]
    exact max_eq_left (le_of_lt hcpos)
  · rw [hdef, hmaxeq]
    rw [abs_le]
    constructor
    · nlinarith
    · nlinarith

/-- Claim C3 witness: attempt 1 with the default configuration and jitter
draw 0.75 satisfies the hypotheses; the bounds follow from the theorem. -/
theorem claim_C3_witness :
    0 ≤ calculateBackoffDelay 1 DEFAULT_CONFIG (3 / 4) ∧
    calculateBackoffDelay 1 DEFAULT_CONFIG (3 / 4) < 21 / 20 * DEFAULT_CONFIG.maxRetryDelayMs ∧
    calculateBackoffDelay 1 DEFAULT_CONFIG (1 / 2) =
      min (DEFAULT_CONFIG.initialRetryDelayMs * 2 ^ 1) DEFAULT_CONFIG.maxRetryDelayMs := by
  have h := claim_C3 1 DEFAULT_CONFIG (3 / 4) (by norm_num) (by norm_num)
    (by norm_num [DEFAULT_CONFIG]) (by norm_num [DEFAULT_CONFIG])
  exact ⟨h.1, h.2.1, h.2.2.1⟩

theorem runRetryGo_all_retryable {α : Type} (outcomes : ℕ → Outcome α) (m : ℕ)
    (hall : ∀ i, i < m → ∃ ei, outcomes i = Outcome.failure ei ∧ isRetryableError ei = true)
    (e : ThrownValue) (he : outcomes (m - 1) = Outcome.failure e) :
    ∀ fuel attempt last, attempt + fuel = m → attempt < m →
      runRetryGo outcomes m attempt fuel last = (Except.error (mkLLMError m e), m) := by
  intro fuel
  induction fuel with
  | zero =>
    intro attempt last hsum hlt
    omega
  | succ f ih =>
    intro attempt last hsum hlt
    obtain ⟨ea, hea, hra⟩ := hall attempt hlt
    by_cases hend : m - 1 ≤ attempt
    · have hattempt : attempt = m - 1 := by omega
      have heq : ea = e := by
        rw [hattempt] at hea
        rw [hea] at he
        injection he
      simp only [runRetryGo, hea]
      rw [if_pos (Or.inl hend)]
      rw [heq]
      have : attempt + 1 = m := by omega
      rw [this]
    · have hretry : ¬ (m - 1 ≤ attempt ∨ isRetryableError ea = false) := by
        push_neg
        refine ⟨by omega, ?_⟩
        simp [hra]
      simp only [runRetryGo, hea]
      rw [if_neg hretry]
      exact ih (attempt + 1) ea (by omega) (by omega)

theorem runRetryGo_nonretryable {α : Type} (outcomes : ℕ → Outcome α) (m k : ℕ)
    (e : ThrownValue) (hk : k < m)
    (hbefore : ∀ i, i < k → ∃ ei, outcomes i = Outcome.failure ei ∧ isRetryableError ei = true)
    (hke : outcomes k = Outcome.failure e) (hnr : isRetryableError e = false) :
    ∀ fuel attempt last, attempt + fuel = m → attempt ≤ k →
      runRetryGo outcomes m attempt fuel last = (Except.error (mkLLMError m e), k + 1) := by
  intro fuel
  induction fuel with
  | zero =>
    intro attempt last hsum hle
    omega
  | succ f ih =>
    intro attempt last hsum hle
    by_cases hak : attempt = k
    · subst hak
      simp only [runRetryGo, hke]
      rw [if_pos (Or.inr hnr)]
    · have hltk : attempt < k := by omega
      obtain ⟨ea, hea, hra⟩ := hbefore attempt hltk
      have hretry : ¬ (m - 1 ≤ attempt ∨ isRetryableError ea = false) := by
        push_neg
        refine ⟨by omega, ?_⟩
        simp [hra]
      simp only [runRetryGo, hea]
      rw [if_neg hretry]
      exact ih (attempt + 1) ea (by omega) (by omega)

/-- Claim C4: over any sequence of attempt outcomes with maxRetries at
least 1, (a) when every attempt fails with a retryable error,
generateObjectWithRetry performs exactly maxRetries attempts and then
throws; (b) when a non-retryable failure occurs at attempt k (after
retryable failures), it throws right there with zero additional
attempts; and (c) the thrown value is the typed LLMError carrying the
recomputed retryable flag, the numeric status code when present, and the
original error as cause. -/
theorem claim_C4 {α : Type} (m : ℕ) (outcomes : ℕ → Outcome α) (hm : 1 ≤ m) :
    ((∀ i, i < m → ∃ ei, outcomes i = Outcome.failure ei ∧ isRetryableError ei = true) →
      ∀ e, outcomes (m - 1) = Outcome.failure e →
        generateObjectWithRetry outcomes m = (Except.error (mkLLMError m e), m)) ∧
    (∀ k e, k < m →
      (∀ i, i < k → ∃ ei, outcomes i = Outcome.failure ei ∧ isRetryableError ei = true) →
      outcomes k = Outcome.failure e → isRetryableError e = false →
        generateObjectWithRetry outcomes m = (Except.error (mkLLMError m e), k + 1)) ∧
    (∀ e : ThrownValue,
      (mkLLMError m e).isRetryable = isRetryableError e ∧
      (mkLLMError m e).statusCode = e.bind (fun x => x.status) ∧
      (mkLLMError m e).originalError = e) := by
  refine ⟨?_, ?_, ?_⟩
  · intro hall e he
    exact runRetryGo_all_retryable outcomes m hall e he m 0 none (by omega) (by omega)
  · intro k e hk hbefore hke hnr
    exact runRetryGo_nonretryable outcomes m k e hk hbefore hke hnr m 0 none (by omega) (by omega)
  · intro e
    exact ⟨rfl, rfl, rfl⟩

/-- An HTTP 500 error object, retryable by classification. -/
def err500 : ThrownValue :=
  some ⟨"Internal Server Error", some 500, none⟩

/-- An outcome oracle where every attempt fails with err500. -/
def allServerErrors : ℕ → Outcome Unit :=
  fun _ => Outcome.failure err500

/-- Claim C4 witness: three attempts all failing with HTTP 500 lead to
exactly 3 attempts and the typed LLMError built from the last failure. -/
theorem claim_C4_witness :
    (1 : ℕ) ≤ 3 ∧
    generateObjectWithRetry allServerErrors 3 = (Except.error (mkLLMError 3 err500), 3) := by
  refine ⟨by norm_num, ?_⟩
  exact (claim_C4 3 allServerErrors (by norm_num)).1
    (fun i _ => ⟨err500, rfl, by decide⟩) err500 rfl

/-- An outcome oracle where every attempt is ended by the withTimeout
timer: the rejection is the plain Error built by withTimeout. -/
def timeoutOutcomes : ℕ → Outcome Unit :=
  fun _ => Outcome.failure (some (timeoutError "generateObject timeout"))

/-- Claim C5, evaluated at the failing input: the plain Error produced by
the withTimeout race carries neither a status nor a code field, so
isRetryableError classifies it as NOT retryable (although the classifier
lists ETIMEDOUT and ESOCKETTIMEDOUT as retryable), and the retry loop
therefore stops after a single attempt instead of retrying. -/
theorem claim_C5 :
    isRetryableError (some (timeoutError "generateObject timeout")) = false ∧
    (generateObjectWithRetry timeoutOutcomes 3).2 = 1 ∧
    (generateObjectWithRetry timeoutOutcomes 3).1 =
      Except.error (mkLLMError 3 (some (timeoutError "generateObject timeout"))) := by
  refine ⟨rfl, rfl, rfl⟩

/-- A state in which the CV child already wrote its partial result:
status QUEUED, cvMatchRate 0.8, stage cv_completed, no error. -/
def db6 : Db :=
  ⟨some ⟨"job-1", JobStatus.QUEUED⟩,
   some { emptyResult with
            cvMatchRate := some (4 / 5)
            cvFeedback := some "good cv"
            currentStage := "cv_completed" }⟩

/-- Claim C6, evaluated at the failing input: the failed-event handler of
the CV evaluation child only logs, leaving the Job un-FAILED and the
EvaluationResult without error, while the project child handler does
mark the Job FAILED with currentStage failed and a non-null error,
preserving the sibling's partial fields and the null overallSummary. -/
theorem claim_C6 :
    cvOnFailed db6 = db6 ∧
    (cvOnFailed db6).job = some ⟨"job-1", JobStatus.QUEUED⟩ ∧
    (cvOnFailed db6).result.bind (fun r => r.error) = none ∧
    (projectOnFailed db6).job = some ⟨"job-1", JobStatus.FAILED⟩ ∧
    (projectOnFailed db6).result =
      some ⟨some (4 / 5), some "good cv", none, none, none, none, none,
            some "Evaluation process failed", "failed"⟩ := by
  refine ⟨rfl, rfl, rfl, rfl, rfl⟩

/-- Claim C7 counterexample: when the Job insert succeeds but the
EvaluationResult insert fails, initializeJob leaves the Job row created
with no EvaluationResult row, violating both-or-neither. -/
theorem claim_C7_counterexample :
    (initializeJob "job-1" true false true ⟨none, none⟩).2.job =
      some ⟨"job-1", JobStatus.QUEUED⟩ ∧
    (initializeJob "job-1" true false true ⟨none, none⟩).2.result = none ∧
    (initializeJob "job-1" true false true ⟨none, none⟩).1 =
      Except.error "evaluationResult create failed" := by
  refine ⟨rfl, rfl, rfl⟩

/-- Claim C7 as amended: initializeJob performs the two inserts
sequentially, not atomically. If the Job insert fails nothing changes;
once both inserts succeed both rows exist (whatever the later queue
submission does); but when the EvaluationResult insert fails after the
Job insert succeeded, the Job row remains while the EvaluationResult was
never created. -/
theorem claim_C7 (jobId : String) (wFlow : Bool) (db : Db) :
    (initializeJob jobId false true wFlow db).2 = db ∧
    ((initializeJob jobId true true wFlow db).2.job = some ⟨jobId, JobStatus.QUEUED⟩ ∧
     (initializeJob jobId true true wFlow db).2.result = some emptyResult) ∧
    ((initializeJob jobId true false wFlow db).2.job = some ⟨jobId, JobStatus.QUEUED⟩ ∧
     (initializeJob jobId true false wFlow db).2.result = db.result ∧
     (initializeJob jobId true false wFlow db).1 =
       Except.error "evaluationResult create failed") := by
  refine ⟨rfl, ?_, ⟨rfl, rfl, rfl⟩⟩
  cases wFlow <;> exact ⟨rfl, rfl⟩

/-- A COMPLETED job whose cvMatchRate is the present value 0: both scores
are non-null, yet the truthiness test fails on 0. -/
def db8 : Db :=
  ⟨some ⟨"job-2", JobStatus.COMPLETED⟩,
   some { emptyResult with
            cvMatchRate := some 0
            projectScore := some 3
            currentStage := "completed" }⟩

/-- Claim C8 counterexample: a COMPLETED job with both numeric scores
present (cvMatchRate = 0, projectScore = 3) gets result omitted, because
the code tests JS truthiness, not presence. -/
theorem claim_C8_counterexample :
    db8.job = some ⟨"job-2", JobStatus.COMPLETED⟩ ∧
    (db8.result.bind (fun r => r.cvMatchRate)).isSome = true ∧
    (db8.result.bind (fun r => r.projectScore)).isSome = true ∧
    ∃ resp, getJobStatus db8 = Except.ok resp ∧ resp.result = none := by
  refine ⟨rfl, rfl, rfl, ⟨statusResponse ⟨"job-2", JobStatus.COMPLETED⟩ db8.result, rfl, ?_⟩⟩
  have hfalse : truthyNum (db8.result.bind (fun r => r.cvMatchRate)) = false := by
    simp [db8, emptyResult, truthyNum]
  simp [statusResponse, hfalse]

/-- Claim C8 as amended: getJobStatus fails when no Job row exists, and
otherwise returns the id, status and stored error; the enriched result
is included if and only if the status is COMPLETED and both cvMatchRate
and projectScore are TRUTHY (non-null and non-zero), not merely present;
in particular any non-completed state yields no result. -/
theorem claim_C8 (db : Db) :
    (db.job = none → getJobStatus db = Except.error "Job not found") ∧
    (∀ j, db.job = some j →
      ∃ resp, getJobStatus db = Except.ok resp ∧
        resp.id = j.id ∧
        resp.status = j.status ∧
        resp.error = db.result.bind (fun r => r.error) ∧
        (resp.result.isSome = true ↔
          (j.status = JobStatus.COMPLETED ∧
           truthyNum (db.result.bind (fun r => r.cvMatchRate)) = true ∧
           truthyNum (db.result.bind (fun r => r.projectScore)) = true))) := by
  constructor
  · intro h
    simp only [getJobStatus, h]
  · intro j hj
    refine ⟨statusResponse j db.result, by simp only [getJobStatus, hj], rfl, rfl, rfl, ?_⟩
    by_cases hC : (j.status = JobStatus.COMPLETED ∧
        truthyNum (db.result.bind (fun r => r.cvMatchRate)) = true ∧
        truthyNum (db.result.bind (fun r => r.projectScore)) = true)
    · simp [statusResponse, hC]
    · simp [statusResponse, hC]

/-- The state of end-to-end scenario 2: CV stage done with match rate 0.8,
project stage still processing, status not yet COMPLETED. -/
def dbScenario2 : Db :=
  ⟨some ⟨"job-3", JobStatus.QUEUED⟩,
   some { emptyResult with
            cvMatchRate := some (4 / 5)
            cvFeedback := some "solid cv"
            currentStage := "project_processing" }⟩

/-- Claim C8 witness: scenario 2 instantiates the amended claim; the
response carries id, non-completed status, no error, and no result. -/
theorem claim_C8_witness :
    dbScenario2.job = some ⟨"job-3", JobStatus.QUEUED⟩ ∧
    ∃ resp, getJobStatus dbScenario2 = Except.ok resp ∧
      resp.id = ("job-3" : String) ∧
      resp.status = JobStatus.QUEUED ∧
      resp.error = dbScenario2.result.bind (fun r => r.error) ∧
      (resp.result.isSome = true ↔
        (JobStatus.QUEUED = JobStatus.COMPLETED ∧
         truthyNum (dbScenario2.result.bind (fun r => r.cvMatchRate)) = true ∧
         truthyNum (dbScenario2.result.bind (fun r => r.projectScore)) = true)) := by
  exact ⟨rfl, (claim_C8 dbScenario2).2 ⟨"job-3", JobStatus.QUEUED⟩ rfl⟩

/-- Claim C9: a loaded rubric whose weights sum differs from 100 by more
than 0.1 makes getCvRubric throw, so evaluateCv aborts before the
evaluation generation call (the call marker stays false and the error
propagates), while getProjectRubric returns the same rubric unchanged
with only a warning and evaluateProject still reaches the generation
call. -/
theorem claim_C9 (rubric : Rubric) (h : |rubricTotalWeight rubric - 100| > 1 / 10) :
    getCvRubric (Except.ok rubric) = Except.error "CV Rubric is misconfigured" ∧
    (∀ jobId jdFetch llm db,
      (evaluateCv jobId (Except.ok rubric) jdFetch llm db).2.2 = false ∧
      (evaluateCv jobId (Except.ok rubric) jdFetch llm db).1 =
        Except.error "CV Rubric is misconfigured") ∧
    getProjectRubric (Except.ok rubric) = Except.ok (rubric, true) ∧
    (∀ jobId csFetch llm db,
      (evaluateProject jobId (Except.ok rubric) (Except.ok csFetch) llm db).2.2 = true) := by
  have hcv : getCvRubric (Except.ok rubric) = Except.error "CV Rubric is misconfigured" := by
    simp only [getCvRubric]
    rw [if_pos h]
  have hwarn : decide (|rubricTotalWeight rubric - 100| > 1 / 10) = true :=
    decide_eq_true h
  have hproj : getProjectRubric (Except.ok rubric) = Except.ok (rubric, true) := by
    simp only [getProjectRubric]
    rw [hwarn]
  refine ⟨hcv, ?_, hproj, ?_⟩
  · intro jobId jdFetch llm db
    constructor <;> simp [evaluateCv, hcv]
  · intro jobId csFetch llm db
    cases llm <;> simp [evaluateProject, hproj]

/-- A rubric whose weights sum to 97, as in end-to-end scenario 4. -/
def rubric97 : Rubric :=
  ⟨[⟨"a_crit", "A", 57⟩, ⟨"b_crit", "B", 40⟩]⟩

/-- Claim C9 witness: the 97-percent rubric triggers the fatal CV error
without reaching the generation call, and only a warning on the project
side. -/
theorem claim_C9_witness :
    |rubricTotalWeight rubric97 - 100| > 1 / 10 ∧
    getCvRubric (Except.ok rubric97) = Except.error "CV Rubric is misconfigured" ∧
    getProjectRubric (Except.ok rubric97) = Except.ok (rubric97, true) ∧
    (evaluateCv (some "job-9") (Except.ok rubric97) (Except.ok "jd")
      (Except.error "llm unreached") ⟨none, none⟩).2.2 = false := by
  have htot : rubricTotalWeight rubric97 = 97 := by
    norm_num [rubricTotalWeight, rubric97]
  have h : |rubricTotalWeight rubric97 - 100| > 1 / 10 := by
    rw [htot]
    rw [show (97 : ℚ) - 100 = -3 by norm_num]
    rw [abs_neg]
    rw [abs_of_nonneg (by norm_num)]
    norm_num
  have hc := claim_C9 rubric97 h
  exact ⟨h, hc.1, hc.2.2.1,
    (hc.2.1 (some "job-9") (Except.ok "jd") (Except.error "llm unreached") ⟨none, none⟩).1⟩

/-- Claim C10: called without a jobId, evaluateCv and evaluateProject
leave the persisted state untouched in every outcome, and return exactly
the value they would return with a jobId (the weighted score, enriched
criteria and feedback): the jobId only gates persistence. -/
theorem claim_C10 (rubricFetch : Except String Rubric) (jdFetch csFetch : Except String String)
    (llm : Except String LlmEval) (db : Db) (jobId : String) :
    (evaluateCv none rubricFetch jdFetch llm db).2.1 = db ∧
    (evaluateProject none rubricFetch csFetch llm db).2.1 = db ∧
    (evaluateCv none rubricFetch jdFetch llm db).1 =
      (evaluateCv (some jobId) rubricFetch jdFetch llm db).1 ∧
    (evaluateProject none rubricFetch csFetch llm db).1 =
      (evaluateProject (some jobId) rubricFetch csFetch llm db).1 := by
  refine ⟨?_, ?_, ?_, ?_⟩
  · rcases hR : getCvRubric rubricFetch with e | r <;> rcases jdFetch with e2 | jd <;>
      rcases llm with e3 | ev <;> simp [evaluateCv, hR]
  · rcases hR : getProjectRubric rubricFetch with e | rb <;> rcases csFetch with e2 | cs <;>
      rcases llm with e3 | ev <;> simp [evaluateProject, hR]
  · rcases hR : getCvRubric rubricFetch with e | r <;> rcases jdFetch with e2 | jd <;>
      rcases llm with e3 | ev <;> simp [evaluateCv, hR]
  · rcases hR : getProjectRubric rubricFetch with e | rb <;> rcases csFetch with e2 | cs <;>
      rcases llm with e3 | ev <;> simp [evaluateProject, hR]

end CvEval
